import Mathlib

/-!
Shallow embedding of the gRPC call core (`src/core/lib/surface/call.c`):
the status arbiter, the batch translator, the inbound receive race gate,
the metadata filters, batch-error accumulation and batch completion.

Machine integers are modelled as `Nat` (all the quantities involved are
non-negative C values); `grpc_error *` values are modelled by the record
`GrpcErrorModel` carrying exactly the attributes the call core reads off
an error: whether the error has a clearly defined grpc-status
(`grpc_error_has_clear_grpc_status`), the status code derived by
`grpc_error_get_status`, and the grpc-message slice.
-/

/-! ### Status codes (grpc_status_code, public API numeric values) -/

def GRPC_STATUS_OK : Nat := 0

def GRPC_STATUS_CANCELLED : Nat := 1

def GRPC_STATUS_UNKNOWN : Nat := 2

def GRPC_STATUS_UNIMPLEMENTED : Nat := 12

def GRPC_STATUS_INTERNAL : Nat := 13

/-! ### Error model -/

/-- Model of a `grpc_error *` as seen by the call core.  `isNone` marks the
distinguished `GRPC_ERROR_NONE`; `hasClearGrpcStatus` models
`grpc_error_has_clear_grpc_status` (the error carries an explicit
`GRPC_ERROR_INT_GRPC_STATUS`); `code` is the status returned by
`grpc_error_get_status`; `message` its `GRPC_ERROR_STR_GRPC_MESSAGE` slice. -/
structure GrpcErrorModel where
  isNone : Bool
  hasClearGrpcStatus : Bool
  code : Nat
  message : String
  deriving DecidableEq

/-- Modelled from the spec: `GRPC_ERROR_NONE` (external error library); it
carries no explicit grpc-status and derives status OK. -/
def GRPC_ERROR_NONE_model : GrpcErrorModel :=
  { isNone := true, hasClearGrpcStatus := false, code := GRPC_STATUS_OK, message := "" }

/-- Modelled from the spec: the special error `GRPC_ERROR_CANCELLED`
(external error library); it has a clearly defined grpc-status CANCELLED. -/
def GRPC_ERROR_CANCELLED_model : GrpcErrorModel :=
  { isNone := false, hasClearGrpcStatus := true, code := GRPC_STATUS_CANCELLED, message := "" }

/-- `error_from_status` (call.c): an error created with
`GRPC_ERROR_INT_GRPC_STATUS := status` and grpc-message := description. -/
def error_from_status (status : Nat) (description : String) : GrpcErrorModel :=
  { isNone := false, hasClearGrpcStatus := true, code := status, message := description }

/-! ### Status arbiter (status_source, received_status, get_final_status) -/

/-- `status_source` (call.c), in declaration order, which is also the
priority order used by `get_final_status` (earlier entries override later
ones). -/
inductive status_source where
  | API_OVERRIDE
  | WIRE
  | CORE
  | SURFACE
  | SERVER_STATUS
  deriving DecidableEq

/-- `received_status` (call.c): one unpacked arbiter slot. -/
structure received_status where
  is_set : Bool
  error : GrpcErrorModel
  deriving DecidableEq

/-- The call's `status[STATUS_SOURCE_COUNT]` array, one slot per source. -/
structure status_array where
  api_override : received_status
  wire : received_status
  core : received_status
  surface : received_status
  server_status : received_status
  deriving DecidableEq

def status_array.get (st : status_array) : status_source → received_status
  | .API_OVERRIDE => st.api_override
  | .WIRE => st.wire
  | .CORE => st.core
  | .SURFACE => st.surface
  | .SERVER_STATUS => st.server_status

def status_array.set (st : status_array) : status_source → received_status → status_array
  | .API_OVERRIDE, r => { st with api_override := r }
  | .WIRE, r => { st with wire := r }
  | .CORE, r => { st with core := r }
  | .SURFACE, r => { st with surface := r }
  | .SERVER_STATUS, r => { st with server_status := r }

/-- All slots unset (the state of a freshly created call). -/
def empty_status_array : status_array :=
  let u : received_status := { is_set := false, error := GRPC_ERROR_NONE_model }
  { api_override := u, wire := u, core := u, surface := u, server_status := u }

/-- The loop order `i = 0 .. STATUS_SOURCE_COUNT-1` of `get_final_status`. -/
def status_sources_in_priority_order : List status_source :=
  [.API_OVERRIDE, .WIRE, .CORE, .SURFACE, .SERVER_STATUS]

/-- `set_status_from_error` (call.c): write-once CAS of the source's slot
from unset to set; a losing CAS leaves the slot unchanged. -/
def set_status_from_error (st : status_array) (source : status_source)
    (error : GrpcErrorModel) : status_array :=
  if (st.get source).is_set then st
  else st.set source { is_set := true, error := error }

/-- `get_final_status_from` (call.c): derive `(code, details)` from an
error; reject an OK code unless `allow_ok_status`. -/
def get_final_status_from (error : GrpcErrorModel) (allow_ok_status : Bool) :
    Option (Nat × String) :=
  if error.code == GRPC_STATUS_OK && !allow_ok_status then none
  else some (error.code, error.message)

/-- One inner loop of `get_final_status`: scan sources in priority order,
considering a slot only if it is set and (when `require_clear`) its error
has a clearly defined grpc-status. -/
def find_status_pass (st : status_array) (allow_ok_status require_clear : Bool) :
    Option (Nat × String) :=
  status_sources_in_priority_order.findSome? fun s =>
    let r := st.get s
    if r.is_set && (!require_clear || r.error.hasClearGrpcStatus) then
      get_final_status_from r.error allow_ok_status
    else none

/-- `get_final_status` (call.c): for `allow_ok_status` in `{false, true}`,
first scan slots with a clearly defined grpc-status, then any set slot;
if nothing is found, a client call reports UNKNOWN and a server call OK. -/
def get_final_status (is_client : Bool) (st : status_array) : Nat × String :=
  match find_status_pass st false true with
  | some r => r
  | none =>
  match find_status_pass st false false with
  | some r => r
  | none =>
  match find_status_pass st true true with
  | some r => r
  | none =>
  match find_status_pass st true false with
  | some r => r
  | none => if is_client then (GRPC_STATUS_UNKNOWN, "") else (GRPC_STATUS_OK, "")

/-! ### The arbiter selection, stated from the spec's words (for C1)

The spec describes the selection as: for `allow_ok` in `{false, true}`:
for each source in priority order, if set and the error carries an
explicit transport status, return it if acceptable under `allow_ok`; if
none matched, for each source in priority order, if set, return its
derived status if acceptable; if still none, UNKNOWN on client / OK on
server. -/

/-- Spec-side candidate list: errors of the set slots in priority order,
restricted (when `require_clear`) to errors carrying an explicit status. -/
def spec_candidates (st : status_array) (require_clear : Bool) : List GrpcErrorModel :=
  (status_sources_in_priority_order.filter fun s =>
      (st.get s).is_set && (!require_clear || (st.get s).error.hasClearGrpcStatus)).map
    fun s => (st.get s).error

/-- Spec-side acceptability: the derived code is returned unless it is OK
and OK is not allowed in this pass. -/
def spec_accept (allow_ok : Bool) (e : GrpcErrorModel) : Option (Nat × String) :=
  if allow_ok || e.code != GRPC_STATUS_OK then some (e.code, e.message) else none

/-- Spec-side selection for one value of `allow_ok`: explicit-status
candidates first, then all set candidates. -/
def spec_select (st : status_array) (allow_ok : Bool) : Option (Nat × String) :=
  match (spec_candidates st true).findSome? (spec_accept allow_ok) with
  | some r => some r
  | none => (spec_candidates st false).findSome? (spec_accept allow_ok)

/-- The spec's two-pass deterministic selection. -/
def spec_final_status (is_client : Bool) (st : status_array) : Nat × String :=
  match spec_select st false with
  | some r => r
  | none =>
  match spec_select st true with
  | some r => r
  | none => if is_client then (GRPC_STATUS_UNKNOWN, "") else (GRPC_STATUS_OK, "")

theorem findSome?_ext {α γ : Type} (l : List α) (f g : α → Option γ)
    (h : ∀ x, f x = g x) : l.findSome? f = l.findSome? g := by
  induction l with
  | nil => rfl
  | cons hd tl ih => simp [List.findSome?_cons, h hd, ih]

theorem findSome?_filter_map {α β γ : Type} (l : List α) (p : α → Bool) (f : α → β)
    (g : β → Option γ) :
    ((l.filter p).map f).findSome? g =
      l.findSome? (fun x => if p x then g (f x) else none) := by
  induction l with
  | nil => rfl
  | cons hd tl ih =>
    by_cases hp : p hd
    · simp [List.filter_cons, hp, List.findSome?_cons]
      cases g (f hd) <;> simp [ih]
    · simp [List.filter_cons, hp, List.findSome?_cons, ih]

theorem find_status_pass_eq_spec (st : status_array) (allow_ok require_clear : Bool) :
    find_status_pass st allow_ok require_clear =
      (spec_candidates st require_clear).findSome? (spec_accept allow_ok) := by
  unfold find_status_pass spec_candidates
  rw [findSome?_filter_map]
  apply findSome?_ext
  intro s
  by_cases h : (st.get s).is_set && (!require_clear || (st.get s).error.hasClearGrpcStatus)
  · simp only [h, if_true]
    unfold get_final_status_from spec_accept
    rcases hb : (st.get s).error.code == GRPC_STATUS_OK <;> cases allow_ok <;>
      simp_all [Nat.beq_eq_true_eq, bne]
  · simp [h]

/-- The final slot state of the spec's arbiter-priority scenario: record
SURFACE := INTERNAL (via `cancel_with_status`), then API_OVERRIDE :=
CANCELLED, then WIRE := OK. -/
def arbiter_priority_scenario : status_array :=
  set_status_from_error
    (set_status_from_error
      (set_status_from_error empty_status_array .SURFACE
        (error_from_status GRPC_STATUS_INTERNAL "Incoming stream has both stream compression and message compression."))
      .API_OVERRIDE GRPC_ERROR_CANCELLED_model)
    .WIRE GRPC_ERROR_NONE_model

/-- C1: `get_final_status` computes exactly the deterministic two-pass
selection described by the spec (for every final set of recorded slots,
and hence the same answer on every repeated invocation), defaults to
UNKNOWN on a client and OK on a server when no slot is set, and on the
concrete scenario (SURFACE=INTERNAL, API_OVERRIDE=CANCELLED, WIRE=OK) a
client call's final status is CANCELLED. -/
theorem get_final_status_correct :
    (∀ (is_client : Bool) (st : status_array),
        get_final_status is_client st = spec_final_status is_client st)
    ∧ (∀ is_client : Bool,
        get_final_status is_client empty_status_array =
          (if is_client then (GRPC_STATUS_UNKNOWN, "") else (GRPC_STATUS_OK, "")))
    ∧ (get_final_status true arbiter_priority_scenario).1 = GRPC_STATUS_CANCELLED := by
  refine ⟨?_, ?_, ?_⟩
  · intro is_client st
    unfold get_final_status spec_final_status spec_select
    rw [find_status_pass_eq_spec st false true, find_status_pass_eq_spec st false false,
      find_status_pass_eq_spec st true true, find_status_pass_eq_spec st true false]
    rcases h1 : (spec_candidates st true).findSome? (spec_accept false) <;>
      rcases h2 : (spec_candidates st false).findSome? (spec_accept false) <;>
      rcases h3 : (spec_candidates st true).findSome? (spec_accept true) <;>
      rcases h4 : (spec_candidates st false).findSome? (spec_accept true) <;>
      simp
  · intro is_client
    cases is_client <;> rfl
  · rfl

/-! ### Inbound receive race gate (recv_state; C3)

`recv_state` is a single atomic word taking the values `RECV_NONE`,
`RECV_INITIAL_METADATA_FIRST`, or a `batch_control` pointer stored by
`receiving_stream_ready`.  The two transport callbacks of one batch,
`receiving_initial_metadata_ready` and `receiving_stream_ready`, are
modelled as state transformers recording an event trace; the race is
modelled at callback granularity (the two arrival orders), which is the
granularity at which the claim is stated. -/

inductive recv_state_value where
  | RECV_NONE
  | RECV_INITIAL_METADATA_FIRST
  | stored_bctl
  deriving DecidableEq

inductive race_event where
  | recv_initial_filter_run
  | validate_filtered_metadata_run
  | process_data_after_md_run
  deriving DecidableEq

structure race_state where
  recv_state : recv_state_value
  trace : List race_event
  deriving DecidableEq

/-- `receiving_stream_ready` (call.c), in the successful case (no error,
stream present): CAS `recv_state` from `RECV_NONE` to the batch-control
pointer; if the CAS succeeds processing is deferred, otherwise
(`recv_state` is `RECV_INITIAL_METADATA_FIRST`) `process_data_after_md`
runs now. -/
def receiving_stream_ready (s : race_state) : race_state :=
  match s.recv_state with
  | .RECV_NONE => { s with recv_state := .stored_bctl }
  | _ => { s with trace := s.trace ++ [race_event.process_data_after_md_run] }

/-- `receiving_initial_metadata_ready` (call.c), in the successful case:
run `recv_initial_filter` and `validate_filtered_metadata` on the initial
metadata, then resolve the gate: if `recv_state` is `RECV_NONE`, CAS it to
`RECV_INITIAL_METADATA_FIRST`; if it holds a batch-control pointer,
schedule the saved `receiving_stream_ready` closure (which then processes
the deferred message). -/
def receiving_initial_metadata_ready (s : race_state) : race_state :=
  let s := { s with
    trace := s.trace ++
      [race_event.recv_initial_filter_run, race_event.validate_filtered_metadata_run] }
  match s.recv_state with
  | .RECV_NONE => { s with recv_state := .RECV_INITIAL_METADATA_FIRST }
  | .stored_bctl => receiving_stream_ready s
  | .RECV_INITIAL_METADATA_FIRST => s

/-- Run the two callbacks of one batch in either order, from the initial
gate state `RECV_NONE` and an empty trace. -/
def race_run (metadata_first : Bool) : race_state :=
  let s0 : race_state := { recv_state := .RECV_NONE, trace := [] }
  if metadata_first then receiving_stream_ready (receiving_initial_metadata_ready s0)
  else receiving_initial_metadata_ready (receiving_stream_ready s0)

/-- C3: for both arrival orders of `initial_metadata_ready` and
`message_ready`, the event trace is exactly filter, validate, process:
`process_data_after_md` runs exactly once, strictly after the initial
metadata passed through `recv_initial_filter` and
`validate_filtered_metadata`. -/
theorem inbound_race_processes_once :
    ∀ metadata_first : Bool,
      (race_run metadata_first).trace =
        [race_event.recv_initial_filter_run, race_event.validate_filtered_metadata_run,
          race_event.process_data_after_md_run] := by
  intro metadata_first
  cases metadata_first <;> rfl

/-! ### Trailing metadata filter (decode_status, recv_trailing_filter; C6) -/

/-- One application-visible metadata element (borrowed key/value slices). -/
structure md_elem where
  key : String
  value : String
  deriving DecidableEq

/-- A received trailing metadata batch, through its named-index side table:
the `grpc-status` element's value (when present), the `grpc-message`
element's value (when present), and the remaining elements in order. -/
structure trailing_md_batch where
  grpc_status : Option String
  grpc_message : Option String
  others : List md_elem
  deriving DecidableEq

/-- Modelled from the spec: `grpc_parse_slice_to_uint32` (slice library,
not under src/) parses a non-empty all-digit decimal token into a value
that fits a uint32, and fails otherwise. -/
def grpc_parse_slice_to_uint32 (s : String) : Option Nat :=
  match s.data with
  | [] => none
  | cs =>
    if cs.all (fun c => c.isDigit) then
      let n := cs.foldl (fun acc c => acc * 10 + (c.toNat - 48)) 0
      if n < 4294967296 then some n else none
    else none

/-- `decode_status` (call.c): fast paths for the interned elements with
values "0", "1", "2" (`GRPC_MDELEM_GRPC_STATUS_0/1/2`); otherwise parse
the value slice as a uint32, defaulting to UNKNOWN when unparsable.  (The
user-data caching of a previously decoded value is a pure cache and is
not modelled.) -/
def decode_status (value : String) : Nat :=
  if value = "0" then 0
  else if value = "1" then 1
  else if value = "2" then 2
  else
    match grpc_parse_slice_to_uint32 value with
    | some status => status
    | none => GRPC_STATUS_UNKNOWN

/-- Modelled from the spec: `grpc_error_set_str(e, GRPC_ERROR_STR_GRPC_MESSAGE, m)`
(external error library).  Setting a string on `GRPC_ERROR_NONE` turns it
into a real error with no explicit grpc-status (its derived status falls
back to UNKNOWN); on any other error it just replaces the message. -/
def grpc_error_set_grpc_message (e : GrpcErrorModel) (m : String) : GrpcErrorModel :=
  if e.isNone then
    { isNone := false, hasClearGrpcStatus := false, code := GRPC_STATUS_UNKNOWN, message := m }
  else { e with message := m }

/-- `recv_trailing_filter` (call.c): if `grpc-status` is present, decode
it; build `GRPC_ERROR_NONE` for OK and otherwise an error carrying the
status with an explicit grpc-status int; attach the `grpc-message` value
when present (removing that element), or an empty message for a non-OK
status; record the error on the arbiter as `STATUS_FROM_WIRE`; remove the
`grpc-status` element.  The remaining elements are published as
application trailing metadata.  Returns the updated arbiter slots and the
published elements. -/
def recv_trailing_filter (slots : status_array) (b : trailing_md_batch) :
    status_array × List md_elem :=
  match b.grpc_status with
  | some v =>
    let status_code := decode_status v
    let error :=
      if status_code = GRPC_STATUS_OK then GRPC_ERROR_NONE_model
      else
        { isNone := false, hasClearGrpcStatus := true, code := status_code,
          message := "" }
    let error :=
      match b.grpc_message with
      | some m => grpc_error_set_grpc_message error m
      | none =>
        if !error.isNone then grpc_error_set_grpc_message error "" else error
    (set_status_from_error slots .WIRE error, b.others)
  | none =>
    (slots,
      b.others ++
        (match b.grpc_message with
        | some m => [{ key := "grpc-message", value := m }]
        | none => []))

/-- C6: for a received trailing batch carrying `grpc-status`,
`recv_trailing_filter` decodes it (fast paths for "0", "1", "2"); when
the decoded status is non-OK and the WIRE slot is still unset, it records
on the WIRE slot an error with an explicit transport status equal to the
decoded code and carrying the `grpc-message` value when present; the
`grpc-status` and `grpc-message` elements are removed and only the
remaining elements are published as application trailing metadata. -/
theorem recv_trailing_filter_records_wire (slots : status_array)
    (others : List md_elem) (v : String) (msg : Option String)
    (hcode : decode_status v ≠ GRPC_STATUS_OK)
    (hwire : slots.wire.is_set = false) :
    (decode_status "0" = 0 ∧ decode_status "1" = 1 ∧ decode_status "2" = 2)
    ∧ (recv_trailing_filter slots
          { grpc_status := some v, grpc_message := msg, others := others }).1.wire =
        { is_set := true,
          error := { isNone := false, hasClearGrpcStatus := true,
                     code := decode_status v, message := msg.getD "" } }
    ∧ (recv_trailing_filter slots
          { grpc_status := some v, grpc_message := msg, others := others }).2 = others := by
  have hw : (status_array.get slots .WIRE).is_set = false := hwire
  refine ⟨⟨rfl, rfl, rfl⟩, ?_, ?_⟩
  · cases msg with
    | none =>
      simp [recv_trailing_filter, if_neg hcode, grpc_error_set_grpc_message,
        set_status_from_error, hw, status_array.set]
    | some m =>
      simp [recv_trailing_filter, if_neg hcode, grpc_error_set_grpc_message,
        set_status_from_error, hw, status_array.set]
  · cases msg <;> simp [recv_trailing_filter]

/-! ### Post-metadata compression validation (validate_filtered_metadata; C7)

The compression library (`grpc_compression_algorithm_from_message_stream_compression_algorithm`,
`grpc_compression_options_is_algorithm_enabled`) is an external
collaborator; it is passed in as the pair `(composite_of, enabled)`.
Identity algorithms (`GRPC_MESSAGE_COMPRESS_NONE`,
`GRPC_STREAM_COMPRESS_NONE`) are the value 0 of their enums. -/

def GRPC_MESSAGE_COMPRESS_NONE : Nat := 0

def GRPC_STREAM_COMPRESS_NONE : Nat := 0

/-- Modelled from the spec: `GRPC_COMPRESS_ALGORITHMS_COUNT` of the public
compression enum (identity, deflate, gzip, stream-gzip). -/
def GRPC_COMPRESS_ALGORITHMS_COUNT : Nat := 4

/-- The part of the call state read and written by the filtered-metadata
validation: the arbiter slots plus the decoded incoming compression
algorithms. -/
structure compression_call_state where
  slots : status_array
  incoming_message_compression_algorithm : Nat
  incoming_stream_compression_algorithm : Nat
  deriving DecidableEq

/-- `cancel_with_status` (call.c) restricted to its effect on the arbiter:
it synthesizes `error_from_status(status, description)` and records it on
the source's slot (the synthetic cancel_stream transport batch it also
dispatches is reported separately by `validate_filtered_metadata` below). -/
def cancel_with_status_slots (slots : status_array) (source : status_source)
    (status : Nat) (description : String) : status_array :=
  set_status_from_error slots source (error_from_status status description)

/-- The error message of the both-compressions branch (the source formats
the two algorithm numbers into it; the numbers are elided here). -/
def both_compression_error_msg : String :=
  "Incoming stream has both stream compression and message compression."

/-- `validate_filtered_metadata` (call.c).  `composite_of msg stream`
models `grpc_compression_algorithm_from_message_stream_compression_algorithm`
(`none` when the pair maps to no composite algorithm) and `enabled`
models the channel's `grpc_compression_options_is_algorithm_enabled`.
Returns the updated state together with the list of `(source, status)`
cancellations issued. -/
def validate_filtered_metadata (composite_of : Nat → Nat → Option Nat)
    (enabled : Nat → Bool) (c : compression_call_state) :
    compression_call_state × List (status_source × Nat) :=
  if c.incoming_stream_compression_algorithm ≠ GRPC_STREAM_COMPRESS_NONE ∧
      c.incoming_message_compression_algorithm ≠ GRPC_MESSAGE_COMPRESS_NONE then
    let slots := cancel_with_status_slots c.slots .SURFACE GRPC_STATUS_INTERNAL
      both_compression_error_msg
    ({ c with slots := slots }, [(.SURFACE, GRPC_STATUS_INTERNAL)])
  else
    match composite_of c.incoming_message_compression_algorithm
        c.incoming_stream_compression_algorithm with
    | none =>
      let slots := cancel_with_status_slots c.slots .SURFACE GRPC_STATUS_INTERNAL
        "Error in incoming message compression or stream compression."
      ({ c with slots := slots }, [(.SURFACE, GRPC_STATUS_INTERNAL)])
    | some compression_algorithm =>
      if compression_algorithm ≥ GRPC_COMPRESS_ALGORITHMS_COUNT then
        let slots := cancel_with_status_slots c.slots .SURFACE GRPC_STATUS_UNIMPLEMENTED
          "Invalid compression algorithm value."
        ({ c with slots := slots }, [(.SURFACE, GRPC_STATUS_UNIMPLEMENTED)])
      else if !enabled compression_algorithm then
        let slots := cancel_with_status_slots c.slots .SURFACE GRPC_STATUS_UNIMPLEMENTED
          "Compression algorithm is disabled."
        ({ c with slots := slots }, [(.SURFACE, GRPC_STATUS_UNIMPLEMENTED)])
      else (c, [])

/-- C7: whenever the filtered initial metadata decoded both a non-identity
incoming stream-compression algorithm and a non-identity incoming
message-compression algorithm, `validate_filtered_metadata` issues exactly
one cancellation, with source SURFACE and status INTERNAL; when the
SURFACE slot was still unset it ends up set with an error carrying the
explicit status INTERNAL, and if no other slot is set either, the call's
final status is INTERNAL. -/
theorem validate_filtered_metadata_both_compressions (composite_of : Nat → Nat → Option Nat)
    (enabled : Nat → Bool) (c : compression_call_state)
    (hstream : c.incoming_stream_compression_algorithm ≠ GRPC_STREAM_COMPRESS_NONE)
    (hmsg : c.incoming_message_compression_algorithm ≠ GRPC_MESSAGE_COMPRESS_NONE) :
    (validate_filtered_metadata composite_of enabled c).2 =
        [(.SURFACE, GRPC_STATUS_INTERNAL)]
    ∧ (c.slots.surface.is_set = false →
        ((validate_filtered_metadata composite_of enabled c).1.slots.surface.is_set = true
        ∧ ((validate_filtered_metadata composite_of enabled c).1.slots.surface.error.code =
            GRPC_STATUS_INTERNAL)
        ∧ ((validate_filtered_metadata composite_of enabled c).1.slots.surface.error.hasClearGrpcStatus
            = true)))
    ∧ (c.slots = empty_status_array →
        ∀ is_client : Bool,
          (get_final_status is_client
            (validate_filtered_metadata composite_of enabled c).1.slots).1 =
            GRPC_STATUS_INTERNAL) := by
  have hcond : c.incoming_stream_compression_algorithm ≠ GRPC_STREAM_COMPRESS_NONE ∧
      c.incoming_message_compression_algorithm ≠ GRPC_MESSAGE_COMPRESS_NONE := ⟨hstream, hmsg⟩
  have hred : validate_filtered_metadata composite_of enabled c =
      ({ c with slots := cancel_with_status_slots c.slots .SURFACE GRPC_STATUS_INTERNAL both_compression_error_msg },
        [(.SURFACE, GRPC_STATUS_INTERNAL)]) := by
    unfold validate_filtered_metadata
    rw [if_pos hcond]
  refine ⟨?_, ?_, ?_⟩
  · rw [hred]
  · intro hsurf
    have hs : (status_array.get c.slots .SURFACE).is_set = false := hsurf
    rw [hred]
    simp [cancel_with_status_slots, set_status_from_error, hs, status_array.set,
      error_from_status]
  · intro hempty is_client
    rw [hred]
    simp only [cancel_with_status_slots, hempty]
    cases is_client <;> rfl

/-! ### Batch error consolidation and completion (C8) -/

/-- The error reported for a finished batch: `GRPC_ERROR_NONE`, a single
error passed through, or a composite created by
`GRPC_ERROR_CREATE_REFERENCING_FROM_STATIC_STRING` referencing all the
accumulated errors. -/
inductive consolidated_error where
  | ok
  | single (e : GrpcErrorModel)
  | composite (description : String) (referencing : List GrpcErrorModel)
  deriving DecidableEq

/-- `consolidate_batch_errors` (call.c): zero accumulated errors give
`GRPC_ERROR_NONE`; exactly one is passed through unchanged; more than one
yields a composite referencing all of them. -/
def consolidate_batch_errors (errors : List GrpcErrorModel) : consolidated_error :=
  match errors with
  | [] => .ok
  | [e] => .single e
  | es => .composite "Call batch failed" es

/-- The transport stream op flags of a translated batch
(`grpc_transport_stream_op_batch`, the booleans the call core sets). -/
structure stream_op_flags where
  send_initial_metadata : Bool
  send_message : Bool
  send_trailing_metadata : Bool
  recv_initial_metadata : Bool
  recv_message : Bool
  recv_trailing_metadata : Bool
  deriving DecidableEq

def empty_stream_op_flags : stream_op_flags :=
  { send_initial_metadata := false, send_message := false, send_trailing_metadata := false,
    recv_initial_metadata := false, recv_message := false, recv_trailing_metadata := false }

/-- The outcome of `post_batch_completion` (call.c): the error handed to
the completion (queue or continuation), the final arbiter slots, the
published trailing metadata, the caller's output slots for the final op
(client status/details or server cancelled flag), and the call flags it
updates. -/
structure post_batch_result where
  reported_error : consolidated_error
  slots : status_array
  published_trailing : List md_elem
  client_status : Option (Nat × String)
  server_cancelled : Option Bool
  received_final_op : Bool
  sending_message : Bool
  deriving DecidableEq

/-- `post_batch_completion` (call.c), projected onto the state the claims
read: consolidate the accumulated errors; clear `sending_message` if the
batch sent a message; if the batch received trailing metadata, run
`recv_trailing_filter`, set `received_final_op`, write the arbitrated
final status into the caller's output slots (`client.status` and
`client.status_details` via `set_status_value_directly` on a client,
`server.cancelled` via `set_cancelled_value` on a server) and replace the
consolidated error by `GRPC_ERROR_NONE`. -/
def post_batch_completion (is_client : Bool) (slots : status_array)
    (recv_trailing_batch : trailing_md_batch) (sending_message : Bool)
    (received_final_op : Bool) (so : stream_op_flags)
    (errors : List GrpcErrorModel) : post_batch_result :=
  let error := consolidate_batch_errors errors
  let sending_message := if so.send_message then false else sending_message
  if so.recv_trailing_metadata then
    let filtered := recv_trailing_filter slots recv_trailing_batch
    let fs := get_final_status is_client filtered.1
    { reported_error := .ok, slots := filtered.1, published_trailing := filtered.2,
      client_status := if is_client then some fs else none,
      server_cancelled := if is_client then none else some (fs.1 != GRPC_STATUS_OK),
      received_final_op := true, sending_message := sending_message }
  else
    { reported_error := error, slots := slots, published_trailing := [],
      client_status := none, server_cancelled := none,
      received_final_op := received_final_op, sending_message := sending_message }

/-- C8: completion consolidates the accumulated errors (zero gives OK,
one is passed through unchanged, several give a composite referencing all
of them), and a batch containing recv-trailing-metadata reports OK
instead, writing the arbitrated final status to the caller's output slots
(client status/details, or the server cancelled flag). -/
theorem post_batch_completion_consolidates (is_client : Bool) (slots : status_array)
    (b : trailing_md_batch) (sending_message received_final_op : Bool)
    (so : stream_op_flags) (errors : List GrpcErrorModel)
    (e : GrpcErrorModel) (es : List GrpcErrorModel) (hes : 2 ≤ es.length) :
    (consolidate_batch_errors [] = .ok
      ∧ consolidate_batch_errors [e] = .single e
      ∧ consolidate_batch_errors es = .composite "Call batch failed" es)
    ∧ (so.recv_trailing_metadata = false →
        (post_batch_completion is_client slots b sending_message received_final_op so
            errors).reported_error = consolidate_batch_errors errors)
    ∧ (so.recv_trailing_metadata = true →
        (post_batch_completion is_client slots b sending_message received_final_op so
            errors).reported_error = .ok
        ∧ (is_client = true →
            (post_batch_completion is_client slots b sending_message received_final_op so
                errors).client_status =
              some (get_final_status is_client (recv_trailing_filter slots b).1))
        ∧ (is_client = false →
            (post_batch_completion is_client slots b sending_message received_final_op so
                errors).server_cancelled =
              some ((get_final_status is_client (recv_trailing_filter slots b).1).1 !=
                GRPC_STATUS_OK))) := by
  refine ⟨⟨rfl, rfl, ?_⟩, ?_, ?_⟩
  · match es, hes with
    | e1 :: e2 :: rest, _ => rfl
  · intro hso
    simp [post_batch_completion, hso]
  · intro hso
    refine ⟨?_, ?_, ?_⟩
    · simp [post_batch_completion, hso]
    · intro hc
      simp [post_batch_completion, hso, hc]
    · intro hc
      simp [post_batch_completion, hso, hc]

/-! ### Per-batch error accumulation (add_batch_error; C9) -/

/-- `MAX_ERRORS_PER_BATCH` (call.c). -/
def MAX_ERRORS_PER_BATCH : Nat := 4

/-- The error-accumulation state of one `batch_control`: the atomic
`num_errors` counter, the `errors[MAX_ERRORS_PER_BATCH]` array, a flag
recording whether any store went past the end of that array, and the
number of call-wide CORE cancellations issued by `add_batch_error`. -/
structure bctl_error_state where
  num_errors : Nat
  errors : List (Option GrpcErrorModel)
  out_of_bounds_write : Bool
  core_cancels : Nat
  deriving DecidableEq

def fresh_bctl_error_state : bctl_error_state :=
  { num_errors := 0, errors := [none, none, none, none], out_of_bounds_write := false,
    core_cancels := 0 }

/-- `add_batch_error` (call.c): return immediately on `GRPC_ERROR_NONE`;
otherwise fetch-and-add `num_errors` to obtain the store index, issue a
call-wide cancel with source CORE if this is the first error and the
caller has not already cancelled (`has_cancelled`), and store the error
at the obtained index. -/
def add_batch_error (b : bctl_error_state) (error : Option GrpcErrorModel)
    (has_cancelled : Bool) : bctl_error_state :=
  match error with
  | none => b
  | some e =>
    let idx := b.num_errors
    { num_errors := idx + 1,
      errors := if idx < MAX_ERRORS_PER_BATCH then b.errors.set idx (some e) else b.errors,
      out_of_bounds_write := b.out_of_bounds_write || decide (MAX_ERRORS_PER_BATCH ≤ idx),
      core_cancels := if idx == 0 && !has_cancelled then b.core_cancels + 1
        else b.core_cancels }

/-- The three transport callbacks of one batch that call
`add_batch_error`: `finish_batch` (on_complete),
`receiving_initial_metadata_ready` and `receiving_stream_ready`. -/
inductive batch_callback where
  | on_complete
  | initial_metadata_ready
  | message_ready
  deriving DecidableEq

instance : Fintype batch_callback where
  elems := {batch_callback.on_complete, batch_callback.initial_metadata_ready,
    batch_callback.message_ready}
  complete := by intro x; cases x <;> simp

/-- One callback arrival carrying the error it passes to
`add_batch_error`.  `receiving_stream_ready` is the only call site that
passes `has_cancelled = true` (it cancels the call itself, with source
SURFACE); the other two pass `false`. -/
def batch_callback_has_cancelled (k : batch_callback) : Bool :=
  match k with
  | .message_ready => true
  | _ => false

/-- Fold the arrived callbacks of one batch over `add_batch_error`. -/
def run_batch_callbacks (events : List (batch_callback × Option GrpcErrorModel)) :
    bctl_error_state :=
  events.foldl (fun b ev => add_batch_error b ev.2 (batch_callback_has_cancelled ev.1))
    fresh_bctl_error_state

/-- The callback that contributed the first non-`GRPC_ERROR_NONE` error,
when one exists. -/
def first_error_callback (events : List (batch_callback × Option GrpcErrorModel)) :
    Option batch_callback :=
  events.findSome? fun ev => ev.2.map fun _ => ev.1

theorem add_batch_error_num (b : bctl_error_state) (error : Option GrpcErrorModel)
    (hc : Bool) :
    (add_batch_error b error hc).num_errors =
      b.num_errors + (if error.isSome then 1 else 0) := by
  cases error <;> simp [add_batch_error]

theorem run_batch_foldl_num (events : List (batch_callback × Option GrpcErrorModel)) :
    ∀ b : bctl_error_state,
      (events.foldl
          (fun b ev => add_batch_error b ev.2 (batch_callback_has_cancelled ev.1)) b).num_errors =
        b.num_errors + events.countP (fun ev => ev.2.isSome) := by
  induction events with
  | nil => intro b; simp
  | cons hd tl ih =>
    intro b
    rcases hhd : hd.2 with _ | e <;>
      simp [List.foldl_cons, ih, add_batch_error_num, hhd, List.countP_cons, Nat.add_assoc,
        Nat.add_comm]

theorem foldl_core_cancels_after_first (events : List (batch_callback × Option GrpcErrorModel)) :
    ∀ b : bctl_error_state, 1 ≤ b.num_errors →
      (events.foldl
          (fun b ev => add_batch_error b ev.2 (batch_callback_has_cancelled ev.1)) b).core_cancels =
        b.core_cancels := by
  induction events with
  | nil => intro b _; rfl
  | cons hd tl ih =>
    intro b hb
    rcases hhd : hd.2 with _ | e
    · rw [List.foldl_cons, hhd]
      exact ih (add_batch_error b none (batch_callback_has_cancelled hd.1))
        (by simp [add_batch_error]; omega)
    · rw [List.foldl_cons, hhd]
      have hnum : (add_batch_error b (some e) (batch_callback_has_cancelled hd.1)).num_errors =
          b.num_errors + 1 := by simp [add_batch_error]
      rw [ih _ (by omega)]
      have hidx : (b.num_errors == 0) = false := by
        cases hn : b.num_errors with
        | zero => omega
        | succ k => rfl
      simp [add_batch_error, hidx]

theorem foldl_core_cancels_from_fresh (events : List (batch_callback × Option GrpcErrorModel)) :
    (run_batch_callbacks events).core_cancels =
      match first_error_callback events with
      | some k => if batch_callback_has_cancelled k then 0 else 1
      | none => 0 := by
  unfold run_batch_callbacks first_error_callback
  induction events with
  | nil => rfl
  | cons hd tl ih =>
    rcases hhd : hd.2 with _ | e
    · rw [List.foldl_cons, hhd]
      have : add_batch_error fresh_bctl_error_state none
          (batch_callback_has_cancelled hd.1) = fresh_bctl_error_state := rfl
      rw [this, ih]
      simp [List.findSome?_cons, hhd]
    · rw [List.foldl_cons, hhd]
      have h1 : (add_batch_error fresh_bctl_error_state (some e)
          (batch_callback_has_cancelled hd.1)).num_errors = 1 := by
        simp [add_batch_error, fresh_bctl_error_state]
      rw [foldl_core_cancels_after_first tl _ (by omega)]
      simp [List.findSome?_cons, hhd, add_batch_error, fresh_bctl_error_state]
      cases batch_callback_has_cancelled hd.1 <;> rfl

theorem foldl_no_oob (events : List (batch_callback × Option GrpcErrorModel)) :
    ∀ b : bctl_error_state, b.out_of_bounds_write = false →
      b.num_errors + events.countP (fun ev => ev.2.isSome) ≤ MAX_ERRORS_PER_BATCH →
      (events.foldl
          (fun b ev => add_batch_error b ev.2 (batch_callback_has_cancelled ev.1))
          b).out_of_bounds_write = false := by
  induction events with
  | nil => intro b hb _; exact hb
  | cons hd tl ih =>
    intro b hb hcount
    rw [List.countP_cons] at hcount
    rcases hhd : hd.2 with _ | e
    · rw [List.foldl_cons, hhd]
      refine ih _ hb ?_
      simp only [add_batch_error]
      simp [hhd] at hcount
      omega
    · rw [List.foldl_cons, hhd]
      have hidx : b.num_errors < MAX_ERRORS_PER_BATCH := by
        have : (1 : Nat) ≤ List.countP (fun ev => ev.2.isSome) (hd :: tl) := by
          rw [List.countP_cons]
          simp [hhd]
        simp [hhd] at hcount
        omega
      refine ih _ ?_ ?_
      · have hge : (MAX_ERRORS_PER_BATCH ≤ b.num_errors) = False := by
          simp
          omega
        simp [add_batch_error, hb, hge]
      · have : (add_batch_error b (some e) (batch_callback_has_cancelled hd.1)).num_errors =
            b.num_errors + 1 := by simp [add_batch_error]
        rw [this]
        simp [hhd] at hcount
        omega

/-- C9: when each of the three batch callbacks (`on_complete`,
`initial_metadata_ready`, `message_ready`) arrives at most once, at most
three errors can be accumulated, so `num_errors` never exceeds 3 and every
store of `add_batch_error` stays within the bounds of the
`errors[MAX_ERRORS_PER_BATCH]` array; moreover at most one call-wide CORE
cancel is issued, and exactly one is issued precisely when the first
accumulated error was added with `has_cancelled` false (i.e. it did not
come from `receiving_stream_ready`, which cancels by itself). -/
theorem add_batch_error_bounded (events : List (batch_callback × Option GrpcErrorModel))
    (hnodup : (events.map Prod.fst).Nodup) :
    (run_batch_callbacks events).num_errors ≤ 3
    ∧ (run_batch_callbacks events).num_errors ≤ MAX_ERRORS_PER_BATCH
    ∧ (run_batch_callbacks events).out_of_bounds_write = false
    ∧ (run_batch_callbacks events).core_cancels ≤ 1
    ∧ ((run_batch_callbacks events).core_cancels =
        match first_error_callback events with
        | some k => if batch_callback_has_cancelled k then 0 else 1
        | none => 0) := by
  have hlen : events.length ≤ 3 := by
    have hcard : Fintype.card batch_callback = 3 := rfl
    have := hnodup.length_le_card
    rw [hcard, List.length_map] at this
    exact this
  have hcount : events.countP (fun ev => ev.2.isSome) ≤ 3 :=
    le_trans (List.countP_le_length _) hlen
  have hnum : (run_batch_callbacks events).num_errors =
      events.countP (fun ev => ev.2.isSome) := by
    unfold run_batch_callbacks
    rw [run_batch_foldl_num]
    simp [fresh_bctl_error_state]
  have hcc := foldl_core_cancels_from_fresh events
  refine ⟨by omega, by unfold MAX_ERRORS_PER_BATCH; omega, ?_, ?_, hcc⟩
  · exact foldl_no_oob events fresh_bctl_error_state rfl
      (by unfold fresh_bctl_error_state MAX_ERRORS_PER_BATCH; simp; omega)
  · rw [hcc]
    rcases first_error_callback events with _ | k
    · simp
    · cases hk : batch_callback_has_cancelled k <;> simp [hk]

/-! ### Call creation: propagation mask validation (grpc_call_create; C10) -/

/-- Modelled from the spec: the propagation-mask bit values of the public
API (`GRPC_PROPAGATE_*`, grpc_types.h, not under src/). -/
def GRPC_PROPAGATE_DEADLINE : Nat := 1

def GRPC_PROPAGATE_CENSUS_STATS_CONTEXT : Nat := 2

def GRPC_PROPAGATE_CENSUS_TRACING_CONTEXT : Nat := 4

def GRPC_PROPAGATE_CANCELLATION : Nat := 8

/-- An init-failure aggregate: the static description plus the child
errors added by `add_init_error`, in order. -/
structure init_error_aggregate where
  description : String
  children : List String
  deriving DecidableEq

/-- `add_init_error` (call.c): a `GRPC_ERROR_NONE` contribution leaves the
composite alone; the first real contribution creates the
"Call creation failed" aggregate, and every contribution is added to it
as a child. -/
def add_init_error (composite : Option init_error_aggregate) (e : Option String) :
    Option init_error_aggregate :=
  match e with
  | none => composite
  | some msg =>
    match composite with
    | none => some { description := "Call creation failed", children := [msg] }
    | some agg => some { agg with children := agg.children ++ [msg] }

def census_tracing_without_stats_msg : String :=
  "Census tracing propagation requested without Census context propagation"

def census_stats_without_tracing_msg : String :=
  "Census context propagation requested without Census tracing propagation"

/-- The cancellations `grpc_call_create` can issue before returning. -/
inductive create_cancel_action where
  | surface_init_error (e : init_error_aggregate)
  | api_override_cancelled
  deriving DecidableEq

/-- The outcome of `grpc_call_create`, projected onto the validation state
the claim reads: the composite init error returned, the cancellations
issued, and the child's `cancellation_is_inherited` flag. -/
structure create_result where
  init_error : Option init_error_aggregate
  cancels : List create_cancel_action
  cancellation_is_inherited : Bool
  deriving DecidableEq

/-- `grpc_call_create` (call.c), projected onto propagation-mask
validation: under a parent, requesting census tracing context without
census stats context, or census stats context without census tracing
context, adds an init error; `GRPC_PROPAGATE_CANCELLATION` marks the
child as inheriting cancellation (with an immediate API_OVERRIDE cancel
when the parent has already observed its final op); the filter-stack init
result is folded in; a non-empty composite error cancels the call with
source `STATUS_FROM_SURFACE`. -/
def grpc_call_create (has_parent : Bool) (propagation_mask : Nat)
    (parent_received_final_op : Bool) (stack_init_error : Option String) :
    create_result :=
  let error : Option init_error_aggregate := none
  let step :=
    if has_parent then
      let error :=
        if propagation_mask &&& GRPC_PROPAGATE_CENSUS_TRACING_CONTEXT != 0 then
          if propagation_mask &&& GRPC_PROPAGATE_CENSUS_STATS_CONTEXT == 0 then
            add_init_error error (some census_tracing_without_stats_msg)
          else error
        else if propagation_mask &&& GRPC_PROPAGATE_CENSUS_STATS_CONTEXT != 0 then
          add_init_error error (some census_stats_without_tracing_msg)
        else error
      let inherit := propagation_mask &&& GRPC_PROPAGATE_CANCELLATION != 0
      let immediately_cancel := inherit && parent_received_final_op
      (error, immediately_cancel, inherit)
    else (error, false, false)
  let error := add_init_error step.1 stack_init_error
  let cancels :=
    (match error with
      | some agg => [create_cancel_action.surface_init_error agg]
      | none => []) ++
    (if step.2.1 then [create_cancel_action.api_override_cancelled] else [])
  { init_error := error, cancels := cancels, cancellation_is_inherited := step.2.2 }

/-- C10: creating a child call whose propagation mask requests
CENSUS_STATS context without CENSUS_TRACING produces a creation error
(the "Call creation failed" aggregate containing the census message) and
the call is cancelled with source SURFACE carrying that aggregate —
symmetric to the tracing-without-stats case. -/
theorem create_validates_stats_without_tracing (propagation_mask : Nat)
    (hstats : propagation_mask &&& GRPC_PROPAGATE_CENSUS_STATS_CONTEXT ≠ 0)
    (htracing : propagation_mask &&& GRPC_PROPAGATE_CENSUS_TRACING_CONTEXT = 0) :
    (grpc_call_create true propagation_mask false none).init_error =
      some { description := "Call creation failed",
             children := [census_stats_without_tracing_msg] }
    ∧ (grpc_call_create true propagation_mask false none).cancels =
      [create_cancel_action.surface_init_error
        { description := "Call creation failed",
          children := [census_stats_without_tracing_msg] }] := by
  have hs : (propagation_mask &&& GRPC_PROPAGATE_CENSUS_STATS_CONTEXT != 0) = true := by
    simpa using hstats
  have ht : (propagation_mask &&& GRPC_PROPAGATE_CENSUS_TRACING_CONTEXT != 0) = false := by
    simpa using htracing
  unfold grpc_call_create
  simp only [ht, hs, Bool.false_eq_true, if_false, if_true, add_init_error,
    Bool.false_and, Bool.and_false]
  simp

/-! ### Batch translator (call_start_batch; C2, C4, C5) -/

/-- Modelled from the spec: the surface write-flag and
initial-metadata-flag masks of the public API (grpc_types.h, not under
src/).  `GRPC_WRITE_USED_MASK` covers BUFFER_HINT and NO_COMPRESS;
`GRPC_WRITE_INTERNAL_USED_MASK` covers the internal COMPRESS bit;
`GRPC_INITIAL_METADATA_USED_MASK` covers IDEMPOTENT_REQUEST,
WAIT_FOR_READY, CACHEABLE_REQUEST and WAIT_FOR_READY_EXPLICITLY_SET. -/
def GRPC_WRITE_USED_MASK : Nat := 3

def GRPC_WRITE_INTERNAL_COMPRESS : Nat := 0x80000000

def GRPC_WRITE_INTERNAL_USED_MASK : Nat := GRPC_WRITE_INTERNAL_COMPRESS

def GRPC_INITIAL_METADATA_IDEMPOTENT_REQUEST : Nat := 0x10

def GRPC_INITIAL_METADATA_USED_MASK : Nat := 0xF0

def UINT32_MASK : Nat := 0xFFFFFFFF

def INT_MAX : Nat := 2147483647

/-- `are_write_flags_valid` (call.c): only bits of
`GRPC_WRITE_USED_MASK | GRPC_WRITE_INTERNAL_USED_MASK` may be set. -/
def are_write_flags_valid (flags : Nat) : Bool :=
  let allowed_write_positions := GRPC_WRITE_USED_MASK ||| GRPC_WRITE_INTERNAL_USED_MASK
  let invalid_positions := UINT32_MASK ^^^ allowed_write_positions
  flags &&& invalid_positions == 0

/-- `are_initial_metadata_flags_valid` (call.c): only bits of
`GRPC_INITIAL_METADATA_USED_MASK`, and on a server additionally no
IDEMPOTENT_REQUEST bit. -/
def are_initial_metadata_flags_valid (flags : Nat) (is_client : Bool) : Bool :=
  let invalid_positions :=
    (UINT32_MASK ^^^ GRPC_INITIAL_METADATA_USED_MASK) |||
      (if is_client then 0 else GRPC_INITIAL_METADATA_IDEMPOTENT_REQUEST)
  flags &&& invalid_positions == 0

/-- `grpc_op_type` (public API): the operation kinds of a surface batch. -/
inductive grpc_op_type where
  | GRPC_OP_SEND_INITIAL_METADATA
  | GRPC_OP_SEND_MESSAGE
  | GRPC_OP_SEND_CLOSE_FROM_CLIENT
  | GRPC_OP_SEND_STATUS_FROM_SERVER
  | GRPC_OP_RECV_INITIAL_METADATA
  | GRPC_OP_RECV_MESSAGE
  | GRPC_OP_RECV_STATUS_ON_CLIENT
  | GRPC_OP_RECV_CLOSE_ON_SERVER
  deriving DecidableEq

/-- `batch_slot_for_op` (call.c). -/
def batch_slot_for_op : grpc_op_type → Nat
  | .GRPC_OP_SEND_INITIAL_METADATA => 0
  | .GRPC_OP_SEND_MESSAGE => 1
  | .GRPC_OP_SEND_CLOSE_FROM_CLIENT => 2
  | .GRPC_OP_SEND_STATUS_FROM_SERVER => 2
  | .GRPC_OP_RECV_INITIAL_METADATA => 3
  | .GRPC_OP_RECV_MESSAGE => 4
  | .GRPC_OP_RECV_CLOSE_ON_SERVER => 5
  | .GRPC_OP_RECV_STATUS_ON_CLIENT => 5

/-- One surface op (`grpc_op`), with its payload projected onto the data
the translator's validation reads: whether `reserved` is NULL, the flag
word, the metadata counts, whether the external metadata validation
(`prepare_application_metadata`) succeeds for its elements, whether a
compression level is set on a send-initial-metadata op, and whether the
send-message payload pointer is NULL. -/
structure grpc_op where
  op : grpc_op_type
  reserved_is_null : Bool
  flags : Nat
  send_initial_metadata_count : Nat
  maybe_compression_level_is_set : Bool
  metadata_is_valid : Bool
  send_message_is_null : Bool
  trailing_metadata_count : Nat
  deriving DecidableEq

/-- `grpc_call_error` (public API), restricted to the values
`call_start_batch` can return. -/
inductive grpc_call_error where
  | GRPC_CALL_OK
  | GRPC_CALL_ERROR
  | GRPC_CALL_ERROR_INVALID_FLAGS
  | GRPC_CALL_ERROR_INVALID_METADATA
  | GRPC_CALL_ERROR_INVALID_MESSAGE
  | GRPC_CALL_ERROR_NOT_ON_CLIENT
  | GRPC_CALL_ERROR_NOT_ON_SERVER
  | GRPC_CALL_ERROR_TOO_MANY_OPERATIONS
  deriving DecidableEq

/-- The call state read and written by the batch translator: the six
per-op flags, the six active-batch slots (`true` when the slot's
batch_control has a non-null `call` pointer), the client/server bit, the
channel's default-compression-level bit, and `any_ops_sent_atm`. -/
structure call_state where
  is_client : Bool
  channel_default_compression_level_is_set : Bool
  sent_initial_metadata : Bool
  sending_message : Bool
  sent_final_op : Bool
  received_initial_metadata : Bool
  receiving_message : Bool
  requested_final_op : Bool
  active_batches : List Bool
  any_ops_sent : Bool
  deriving DecidableEq

/-- A freshly created call: no flags set, all six batch slots free. -/
def fresh_call (is_client : Bool) : call_state :=
  { is_client := is_client, channel_default_compression_level_is_set := false,
    sent_initial_metadata := false, sending_message := false, sent_final_op := false,
    received_initial_metadata := false, receiving_message := false,
    requested_final_op := false,
    active_batches := [false, false, false, false, false, false], any_ops_sent := false }

/-- The six per-op flags of a call, as a tuple (for stating that the
translator's error path restores them exactly). -/
def six_flags (c : call_state) : Bool × Bool × Bool × Bool × Bool × Bool :=
  (c.sent_initial_metadata, c.sending_message, c.sent_final_op,
    c.received_initial_metadata, c.receiving_message, c.requested_final_op)

/-- The call flag that an op of the given kind marks as in-flight. -/
def op_flag (t : grpc_op_type) (c : call_state) : Bool :=
  match t with
  | .GRPC_OP_SEND_INITIAL_METADATA => c.sent_initial_metadata
  | .GRPC_OP_SEND_MESSAGE => c.sending_message
  | .GRPC_OP_SEND_CLOSE_FROM_CLIENT => c.sent_final_op
  | .GRPC_OP_SEND_STATUS_FROM_SERVER => c.sent_final_op
  | .GRPC_OP_RECV_INITIAL_METADATA => c.received_initial_metadata
  | .GRPC_OP_RECV_MESSAGE => c.receiving_message
  | .GRPC_OP_RECV_STATUS_ON_CLIENT => c.requested_final_op
  | .GRPC_OP_RECV_CLOSE_ON_SERVER => c.requested_final_op

/-- `done_with_error` (call.c): reverse every per-flag mutation the
translated batch recorded in the stream op so far, clearing the
corresponding metadata/stream storage. -/
def revert_batch_mutations (c : call_state) (so : stream_op_flags) : call_state :=
  { c with
    sent_initial_metadata :=
      if so.send_initial_metadata then false else c.sent_initial_metadata,
    sending_message := if so.send_message then false else c.sending_message,
    sent_final_op := if so.send_trailing_metadata then false else c.sent_final_op,
    received_initial_metadata :=
      if so.recv_initial_metadata then false else c.received_initial_metadata,
    receiving_message := if so.recv_message then false else c.receiving_message,
    requested_final_op :=
      if so.recv_trailing_metadata then false else c.requested_final_op }

/-- The state of the op-rewriting loop of `call_start_batch` when it stops:
either `goto done_with_error` with the mutations made so far, or success
with the translated stream op and the number of completion callbacks. -/
inductive batch_loop_result where
  | failed (err : grpc_call_error) (c : call_state) (so : stream_op_flags)
  | ok (c : call_state) (so : stream_op_flags) (num_completion_callbacks_needed : Nat)
  deriving DecidableEq

/-- The op-rewriting loop of `call_start_batch` (call.c): validation and
mutation are interleaved exactly as in the source; every `goto
done_with_error` carries the mutations made so far. -/
def batch_rewrite_loop (ops : List grpc_op) (c : call_state) (so : stream_op_flags)
    (cbs : Nat) : batch_loop_result :=
  match ops with
  | [] => .ok c so cbs
  | op :: rest =>
    if !op.reserved_is_null then .failed .GRPC_CALL_ERROR c so
    else
      match op.op with
      | .GRPC_OP_SEND_INITIAL_METADATA =>
        if !are_initial_metadata_flags_valid op.flags c.is_client then
          .failed .GRPC_CALL_ERROR_INVALID_FLAGS c so
        else if c.sent_initial_metadata then
          .failed .GRPC_CALL_ERROR_TOO_MANY_OPERATIONS c so
        else
          let level_is_set := op.maybe_compression_level_is_set ||
            c.channel_default_compression_level_is_set
          let additional_metadata_count :=
            if level_is_set && !c.is_client then 1 else 0
          if op.send_initial_metadata_count + additional_metadata_count > INT_MAX then
            .failed .GRPC_CALL_ERROR_INVALID_METADATA c so
          else
            let so := { so with send_initial_metadata := true }
            let c := { c with sent_initial_metadata := true }
            if !op.metadata_is_valid then
              .failed .GRPC_CALL_ERROR_INVALID_METADATA c so
            else batch_rewrite_loop rest c so cbs
      | .GRPC_OP_SEND_MESSAGE =>
        if !are_write_flags_valid op.flags then
          .failed .GRPC_CALL_ERROR_INVALID_FLAGS c so
        else if op.send_message_is_null then
          .failed .GRPC_CALL_ERROR_INVALID_MESSAGE c so
        else if c.sending_message then
          .failed .GRPC_CALL_ERROR_TOO_MANY_OPERATIONS c so
        else
          let so := { so with send_message := true }
          let c := { c with sending_message := true }
          batch_rewrite_loop rest c so cbs
      | .GRPC_OP_SEND_CLOSE_FROM_CLIENT =>
        if op.flags ≠ 0 then .failed .GRPC_CALL_ERROR_INVALID_FLAGS c so
        else if !c.is_client then .failed .GRPC_CALL_ERROR_NOT_ON_SERVER c so
        else if c.sent_final_op then .failed .GRPC_CALL_ERROR_TOO_MANY_OPERATIONS c so
        else
          let so := { so with send_trailing_metadata := true }
          let c := { c with sent_final_op := true }
          batch_rewrite_loop rest c so cbs
      | .GRPC_OP_SEND_STATUS_FROM_SERVER =>
        if op.flags ≠ 0 then .failed .GRPC_CALL_ERROR_INVALID_FLAGS c so
        else if c.is_client then .failed .GRPC_CALL_ERROR_NOT_ON_CLIENT c so
        else if c.sent_final_op then .failed .GRPC_CALL_ERROR_TOO_MANY_OPERATIONS c so
        else if op.trailing_metadata_count > INT_MAX then
          .failed .GRPC_CALL_ERROR_INVALID_METADATA c so
        else
          let so := { so with send_trailing_metadata := true }
          let c := { c with sent_final_op := true }
          if !op.metadata_is_valid then
            .failed .GRPC_CALL_ERROR_INVALID_METADATA c so
          else batch_rewrite_loop rest c so cbs
      | .GRPC_OP_RECV_INITIAL_METADATA =>
        if op.flags ≠ 0 then .failed .GRPC_CALL_ERROR_INVALID_FLAGS c so
        else if c.received_initial_metadata then
          .failed .GRPC_CALL_ERROR_TOO_MANY_OPERATIONS c so
        else
          let c := { c with received_initial_metadata := true }
          let so := { so with recv_initial_metadata := true }
          batch_rewrite_loop rest c so (cbs + 1)
      | .GRPC_OP_RECV_MESSAGE =>
        if op.flags ≠ 0 then .failed .GRPC_CALL_ERROR_INVALID_FLAGS c so
        else if c.receiving_message then
          .failed .GRPC_CALL_ERROR_TOO_MANY_OPERATIONS c so
        else
          let c := { c with receiving_message := true }
          let so := { so with recv_message := true }
          batch_rewrite_loop rest c so (cbs + 1)
      | .GRPC_OP_RECV_STATUS_ON_CLIENT =>
        if op.flags ≠ 0 then .failed .GRPC_CALL_ERROR_INVALID_FLAGS c so
        else if !c.is_client then .failed .GRPC_CALL_ERROR_NOT_ON_SERVER c so
        else if c.requested_final_op then
          .failed .GRPC_CALL_ERROR_TOO_MANY_OPERATIONS c so
        else
          let c := { c with requested_final_op := true }
          let so := { so with recv_trailing_metadata := true }
          batch_rewrite_loop rest c so cbs
      | .GRPC_OP_RECV_CLOSE_ON_SERVER =>
        if op.flags ≠ 0 then .failed .GRPC_CALL_ERROR_INVALID_FLAGS c so
        else if c.is_client then .failed .GRPC_CALL_ERROR_NOT_ON_CLIENT c so
        else if c.requested_final_op then
          .failed .GRPC_CALL_ERROR_TOO_MANY_OPERATIONS c so
        else
          let c := { c with requested_final_op := true }
          let so := { so with recv_trailing_metadata := true }
          batch_rewrite_loop rest c so cbs

/-- What `call_start_batch` returns and leaves behind: the
`grpc_call_error`, the resulting call state, and how many transport
batches were dispatched into the filter stack (`execute_batch`). -/
structure batch_result where
  err : grpc_call_error
  call : call_state
  transport_batches_dispatched : Nat
  steps_to_complete : Nat
  deriving DecidableEq

/-- `call_start_batch` (call.c).  An empty batch immediately completes
with OK (a no-op completion-queue post or a scheduled continuation) and
enters no filter stack.  Otherwise `allocate_batch_control` fails with
TOO_MANY_OPERATIONS when the slot of the first op is still in use
(`bctl->call != NULL`); a fresh batch control marks that slot in use.
The op-rewriting loop then either fails (reverting every per-flag
mutation, dispatching nothing) or dispatches exactly one transport batch
with `any_ops_sent_atm := 1`. -/
def call_start_batch (c : call_state) (ops : List grpc_op) : batch_result :=
  match ops with
  | [] =>
    { err := .GRPC_CALL_OK, call := c, transport_batches_dispatched := 0,
      steps_to_complete := 0 }
  | op0 :: _ =>
    let slot := batch_slot_for_op op0.op
    if c.active_batches.getD slot false then
      { err := .GRPC_CALL_ERROR_TOO_MANY_OPERATIONS, call := c,
        transport_batches_dispatched := 0, steps_to_complete := 0 }
    else
      let c := { c with active_batches := c.active_batches.set slot true }
      match batch_rewrite_loop ops c empty_stream_op_flags 1 with
      | .failed e c' so =>
        { err := e, call := revert_batch_mutations c' so,
          transport_batches_dispatched := 0, steps_to_complete := 0 }
      | .ok c' _so cbs =>
        { err := .GRPC_CALL_OK, call := { c' with any_ops_sent := true },
          transport_batches_dispatched := 1, steps_to_complete := cbs }

/-- `finish_batch_completion` / `post_batch_completion` (call.c),
projected onto the state the duplicate-detection claims read: completing
a batch clears `sending_message` when the batch sent a message and frees
the batch slot (`bctl->call = NULL`). -/
def complete_batch (c : call_state) (so : stream_op_flags) (slot : Nat) : call_state :=
  let c := if so.send_message then { c with sending_message := false } else c
  { c with active_batches := c.active_batches.set slot false }

theorem getD_set_self {α : Type} (l : List α) (n : Nat) (a d : α) (h : n < l.length) :
    (l.set n a).getD n d = a := by
  induction l generalizing n with
  | nil => simp at h
  | cons hd tl ih =>
    cases n with
    | zero => rfl
    | succ m =>
      have : m < tl.length := by simpa using h
      simpa [List.set, List.getD] using ih m this

theorem revert_empty_stream_op (c : call_state) :
    revert_batch_mutations c empty_stream_op_flags = c := by
  simp [revert_batch_mutations, empty_stream_op_flags]

/-- One interleaved mutation step preserves what `done_with_error` will
restore: setting a per-op flag (guarded by its duplicate check) together
with the matching stream-op bit leaves the reverted six flags unchanged. -/
theorem revert_step_sent_initial_metadata (c : call_state) (so : stream_op_flags)
    (h : c.sent_initial_metadata = false) :
    six_flags (revert_batch_mutations { c with sent_initial_metadata := true }
        { so with send_initial_metadata := true }) =
      six_flags (revert_batch_mutations c so) := by
  simp [revert_batch_mutations, six_flags, h]

theorem revert_step_sending_message (c : call_state) (so : stream_op_flags)
    (h : c.sending_message = false) :
    six_flags (revert_batch_mutations { c with sending_message := true }
        { so with send_message := true }) =
      six_flags (revert_batch_mutations c so) := by
  simp [revert_batch_mutations, six_flags, h]

theorem revert_step_sent_final_op (c : call_state) (so : stream_op_flags)
    (h : c.sent_final_op = false) :
    six_flags (revert_batch_mutations { c with sent_final_op := true }
        { so with send_trailing_metadata := true }) =
      six_flags (revert_batch_mutations c so) := by
  simp [revert_batch_mutations, six_flags, h]

theorem revert_step_received_initial_metadata (c : call_state) (so : stream_op_flags)
    (h : c.received_initial_metadata = false) :
    six_flags (revert_batch_mutations { c with received_initial_metadata := true }
        { so with recv_initial_metadata := true }) =
      six_flags (revert_batch_mutations c so) := by
  simp [revert_batch_mutations, six_flags, h]

theorem revert_step_receiving_message (c : call_state) (so : stream_op_flags)
    (h : c.receiving_message = false) :
    six_flags (revert_batch_mutations { c with receiving_message := true }
        { so with recv_message := true }) =
      six_flags (revert_batch_mutations c so) := by
  simp [revert_batch_mutations, six_flags, h]

theorem revert_step_requested_final_op (c : call_state) (so : stream_op_flags)
    (h : c.requested_final_op = false) :
    six_flags (revert_batch_mutations { c with requested_final_op := true }
        { so with recv_trailing_metadata := true }) =
      six_flags (revert_batch_mutations c so) := by
  simp [revert_batch_mutations, six_flags, h]

theorem bool_not_true {b : Bool} (h : ¬(b = true)) : b = false := by
  cases b
  · rfl
  · exact absurd rfl h

/-- On every `done_with_error` exit, reverting the mutations recorded in
the stream op restores exactly the six flags the loop started from, and
the loop never touches the non-flag fields. -/
theorem batch_rewrite_loop_failed (ops : List grpc_op) :
    ∀ (c : call_state) (so : stream_op_flags) (cbs : Nat) (e : grpc_call_error)
      (c' : call_state) (so' : stream_op_flags),
      batch_rewrite_loop ops c so cbs = .failed e c' so' →
      six_flags (revert_batch_mutations c' so') = six_flags (revert_batch_mutations c so)
      ∧ c'.is_client = c.is_client
      ∧ c'.active_batches = c.active_batches
      ∧ c'.any_ops_sent = c.any_ops_sent := by
  induction ops with
  | nil => intro c so cbs e c' so' h; cases h
  | cons op rest ih =>
    intro c so cbs e c' so' h
    simp only [batch_rewrite_loop] at h
    repeat' split at h
    all_goals
      first
      | (cases h; exact ⟨rfl, rfl, rfl, rfl⟩)
      | (cases h;
         exact ⟨revert_step_sent_initial_metadata c so (bool_not_true (by assumption)), rfl, rfl, rfl⟩)
      | (cases h;
         exact ⟨revert_step_sent_final_op c so (bool_not_true (by assumption)), rfl, rfl, rfl⟩)
      | (obtain ⟨h1, h2, h3, h4⟩ := ih _ _ _ _ _ _ h;
         exact ⟨h1.trans (revert_step_sent_initial_metadata c so (bool_not_true (by assumption))),
           by simpa using h2, by simpa using h3, by simpa using h4⟩)
      | (obtain ⟨h1, h2, h3, h4⟩ := ih _ _ _ _ _ _ h;
         exact ⟨h1.trans (revert_step_sending_message c so (bool_not_true (by assumption))),
           by simpa using h2, by simpa using h3, by simpa using h4⟩)
      | (obtain ⟨h1, h2, h3, h4⟩ := ih _ _ _ _ _ _ h;
         exact ⟨h1.trans (revert_step_sent_final_op c so (bool_not_true (by assumption))),
           by simpa using h2, by simpa using h3, by simpa using h4⟩)
      | (obtain ⟨h1, h2, h3, h4⟩ := ih _ _ _ _ _ _ h;
         exact ⟨h1.trans (revert_step_received_initial_metadata c so (bool_not_true (by assumption))),
           by simpa using h2, by simpa using h3, by simpa using h4⟩)
      | (obtain ⟨h1, h2, h3, h4⟩ := ih _ _ _ _ _ _ h;
         exact ⟨h1.trans (revert_step_receiving_message c so (bool_not_true (by assumption))),
           by simpa using h2, by simpa using h3, by simpa using h4⟩)
      | (obtain ⟨h1, h2, h3, h4⟩ := ih _ _ _ _ _ _ h;
         exact ⟨h1.trans (revert_step_requested_final_op c so (bool_not_true (by assumption))),
           by simpa using h2, by simpa using h3, by simpa using h4⟩)

set_option maxHeartbeats 1600000 in
/-- When the loop succeeds, it never clears a per-op flag, it sets the
flag of every op in the vector, and it leaves the non-flag fields
untouched. -/
theorem batch_rewrite_loop_ok (ops : List grpc_op) :
    ∀ (c : call_state) (so : stream_op_flags) (cbs : Nat)
      (c' : call_state) (so' : stream_op_flags) (cbs' : Nat),
      batch_rewrite_loop ops c so cbs = .ok c' so' cbs' →
      (c'.is_client = c.is_client
        ∧ c'.active_batches = c.active_batches
        ∧ c'.any_ops_sent = c.any_ops_sent)
      ∧ (∀ t : grpc_op_type, op_flag t c = true → op_flag t c' = true)
      ∧ (∀ op ∈ ops, op_flag op.op c' = true) := by
  induction ops with
  | nil =>
    intro c so cbs c' so' cbs' h
    cases h
    exact ⟨⟨rfl, rfl, rfl⟩, fun t ht => ht, fun op hop => absurd hop (List.not_mem_nil op)⟩
  | cons op rest ih =>
    intro c so cbs c' so' cbs' h
    simp only [batch_rewrite_loop] at h
    repeat' split at h
    all_goals
      first
      | (cases h)
      | (obtain ⟨⟨h1, h2, h3⟩, hmono, hall⟩ := ih _ _ _ _ _ _ h;
         clear h ih;
         refine ⟨⟨by simpa using h1, by simpa using h2, by simpa using h3⟩, ?_, ?_⟩
         · intro t ht
           apply hmono t
           cases t <;> simp_all [op_flag]
         · intro o2 ho2
           rcases List.mem_cons.mp ho2 with rfl | htl
           · apply hmono
             simp_all [op_flag]
           · exact hall o2 htl)

/-- The loop's error exits all carry a non-OK call error. -/
theorem batch_rewrite_loop_failed_ne_ok (ops : List grpc_op) :
    ∀ (c : call_state) (so : stream_op_flags) (cbs : Nat) (e : grpc_call_error)
      (c' : call_state) (so' : stream_op_flags),
      batch_rewrite_loop ops c so cbs = .failed e c' so' → e ≠ .GRPC_CALL_OK := by
  induction ops with
  | nil => intro c so cbs e c' so' h; cases h
  | cons op rest ih =>
    intro c so cbs e c' so' h
    simp only [batch_rewrite_loop] at h
    repeat' split at h
    all_goals
      first
      | (cases h; decide)
      | (cases h)
      | (exact ih _ _ _ _ _ _ h)

theorem op_flag_ignores_any_ops_sent (t : grpc_op_type) (c : call_state) (b : Bool) :
    op_flag t { c with any_ops_sent := b } = op_flag t c := by
  cases t <;> rfl

theorem six_flags_ignores_active_batches (c : call_state) (l : List Bool) :
    six_flags { c with active_batches := l } = six_flags c := rfl

theorem revert_preserves_active_batches (c : call_state) (so : stream_op_flags) :
    (revert_batch_mutations c so).active_batches = c.active_batches := rfl

theorem batch_slot_for_op_lt (t : grpc_op_type) : batch_slot_for_op t < 6 := by
  cases t <;> simp [batch_slot_for_op]

/-- C2 (amended): for every op vector of length at most 6, a non-OK
return of `call_start_batch` leaves all six per-op flags exactly as they
were and dispatches no transport batch; an OK return sets the flag of
every submitted op and dispatches exactly one transport batch when the
vector is non-empty — the empty vector returns OK, completes immediately
and dispatches none. -/
theorem call_start_batch_rollback_or_dispatch (c : call_state) (ops : List grpc_op)
    (hlen : ops.length ≤ 6) :
    ((call_start_batch c ops).err ≠ .GRPC_CALL_OK →
        six_flags (call_start_batch c ops).call = six_flags c
        ∧ (call_start_batch c ops).transport_batches_dispatched = 0)
    ∧ ((call_start_batch c ops).err = .GRPC_CALL_OK →
        (∀ op ∈ ops, op_flag op.op (call_start_batch c ops).call = true)
        ∧ (ops ≠ [] → (call_start_batch c ops).transport_batches_dispatched = 1)
        ∧ (ops = [] → (call_start_batch c ops).transport_batches_dispatched = 0)) := by
  cases ops with
  | nil =>
    exact ⟨fun hne => absurd rfl hne,
      fun _ => ⟨fun op hop => absurd hop (List.not_mem_nil op),
        fun hne => absurd rfl hne, fun _ => rfl⟩⟩
  | cons op0 rest =>
    simp only [call_start_batch]
    by_cases hbusy : c.active_batches.getD (batch_slot_for_op op0.op) false = true
    · rw [if_pos hbusy]
      exact ⟨fun _ => ⟨rfl, rfl⟩, fun hok => absurd hok (by simp)⟩
    · rw [if_neg hbusy]
      rcases hr : batch_rewrite_loop (op0 :: rest)
          { c with active_batches := c.active_batches.set (batch_slot_for_op op0.op) true }
          empty_stream_op_flags 1 with ⟨e, c2, so2⟩ | ⟨c2, so2, cbs2⟩
      · obtain ⟨h1, _, _, _⟩ := batch_rewrite_loop_failed _ _ _ _ _ _ _ hr
        have hne := batch_rewrite_loop_failed_ne_ok _ _ _ _ _ _ _ hr
        refine ⟨fun _ => ⟨?_, rfl⟩, fun hok => absurd hok hne⟩
        rw [h1, revert_empty_stream_op]
        rfl
      · obtain ⟨⟨_, _, _⟩, _, hall⟩ := batch_rewrite_loop_ok _ _ _ _ _ _ _ hr
        refine ⟨fun hne => absurd rfl hne, fun _ => ⟨?_, fun _ => rfl, fun hne => by cases hne⟩⟩
        intro op hop
        rw [op_flag_ignores_any_ops_sent]
        exact hall op hop

/-- C2 (counterexample to the claim as frozen): the empty op vector has
length at most 6 and `call_start_batch` returns OK on it, yet no
transport batch is dispatched, so "if it returns OK ... exactly one
transport batch is dispatched" fails at the empty vector. -/
theorem call_start_batch_empty_dispatches_none :
    (call_start_batch (fresh_call true) []).err = .GRPC_CALL_OK
    ∧ ¬((call_start_batch (fresh_call true) []).transport_batches_dispatched = 1) := by
  exact ⟨rfl, by decide⟩

/-- C4: when `call_start_batch` returns a validation error on a non-empty
op vector, the six per-op flags are rolled back, but the batch control in
the slot of the vector's first op keeps its non-null `call` pointer
(nothing on the error path clears it — only batch completion does), so
every later `call_start_batch` on the same call whose first op maps to
that slot fails with TOO_MANY_OPERATIONS. -/
theorem failed_batch_slot_blocks (c : call_state) (op0 : grpc_op) (rest : List grpc_op)
    (hlen : c.active_batches.length = 6)
    (herr : (call_start_batch c (op0 :: rest)).err ≠ .GRPC_CALL_OK) :
    six_flags (call_start_batch c (op0 :: rest)).call = six_flags c
    ∧ (call_start_batch c (op0 :: rest)).call.active_batches.getD
        (batch_slot_for_op op0.op) false = true
    ∧ (∀ (op0' : grpc_op) (rest' : List grpc_op),
        batch_slot_for_op op0'.op = batch_slot_for_op op0.op →
        (call_start_batch (call_start_batch c (op0 :: rest)).call (op0' :: rest')).err =
          .GRPC_CALL_ERROR_TOO_MANY_OPERATIONS) := by
  simp only [call_start_batch] at herr ⊢
  by_cases hbusy : c.active_batches.getD (batch_slot_for_op op0.op) false = true
  · rw [if_pos hbusy] at herr ⊢
    refine ⟨rfl, hbusy, ?_⟩
    intro op0' rest' hslot
    show (call_start_batch c (op0' :: rest')).err = .GRPC_CALL_ERROR_TOO_MANY_OPERATIONS
    simp only [call_start_batch]
    rw [hslot, if_pos hbusy]
  · rw [if_neg hbusy] at herr ⊢
    rcases hr : batch_rewrite_loop (op0 :: rest)
        { c with active_batches := c.active_batches.set (batch_slot_for_op op0.op) true }
        empty_stream_op_flags 1 with ⟨e, c2, so2⟩ | ⟨c2, so2, cbs2⟩
    · obtain ⟨h1, _, h3, _⟩ := batch_rewrite_loop_failed _ _ _ _ _ _ _ hr
      have hset : (revert_batch_mutations c2 so2).active_batches.getD
          (batch_slot_for_op op0.op) false = true := by
        rw [revert_preserves_active_batches, h3]
        exact getD_set_self c.active_batches (batch_slot_for_op op0.op) true false
          (by rw [hlen]; exact batch_slot_for_op_lt op0.op)
      refine ⟨?_, hset, ?_⟩
      · show six_flags (revert_batch_mutations c2 so2) = six_flags c
        rw [h1, revert_empty_stream_op]
        rfl
      · intro op0' rest' hslot
        show (call_start_batch (revert_batch_mutations c2 so2) (op0' :: rest')).err =
          .GRPC_CALL_ERROR_TOO_MANY_OPERATIONS
        simp only [call_start_batch]
        rw [hslot, if_pos hset]
    · rw [hr] at herr
      exact absurd rfl herr

/-- A well-formed SEND_INITIAL_METADATA op: NULL `reserved`, no flags, no
metadata elements, no per-op compression level. -/
def send_initial_metadata_op : grpc_op :=
  { op := .GRPC_OP_SEND_INITIAL_METADATA, reserved_is_null := true, flags := 0,
    send_initial_metadata_count := 0, maybe_compression_level_is_set := false,
    metadata_is_valid := true, send_message_is_null := true, trailing_metadata_count := 0 }

theorem initial_metadata_flags_valid_zero (is_client : Bool) :
    are_initial_metadata_flags_valid 0 is_client = true := by
  simp [are_initial_metadata_flags_valid, Nat.zero_and]

theorem loop_sim_ok (c : call_state) (hsim : c.sent_initial_metadata = false) :
    batch_rewrite_loop [send_initial_metadata_op] c empty_stream_op_flags 1 =
      .ok { c with sent_initial_metadata := true }
        { empty_stream_op_flags with send_initial_metadata := true } 1 := by
  have hgt : ∀ b : Bool, (0 + (if b = true then 1 else 0) > INT_MAX) = False := by
    intro b
    cases b <;> simp [INT_MAX]
  simp only [batch_rewrite_loop, send_initial_metadata_op, initial_metadata_flags_valid_zero,
    Bool.not_true, Bool.false_eq_true, if_false, hsim, Bool.false_or, hgt]

theorem loop_sim_dup (c : call_state) (hsim : c.sent_initial_metadata = true) :
    batch_rewrite_loop [send_initial_metadata_op] c empty_stream_op_flags 1 =
      .failed .GRPC_CALL_ERROR_TOO_MANY_OPERATIONS c empty_stream_op_flags := by
  simp only [batch_rewrite_loop, send_initial_metadata_op, initial_metadata_flags_valid_zero,
    Bool.not_true, Bool.false_eq_true, if_false, hsim, if_true]

/-- The call state right after the first SEND_INITIAL_METADATA batch was
dispatched: the flag is set, slot 0 holds the outstanding batch control,
`any_ops_sent` is 1. -/
def call_after_first_sim_batch (c : call_state) : call_state :=
  { c with
    sent_initial_metadata := true
    active_batches := c.active_batches.set 0 true
    any_ops_sent := true }

/-- The call state after that batch completed: slot 0 is free again, the
`sent_initial_metadata` flag remains set. -/
def call_after_sim_batch_completed (c : call_state) : call_state :=
  { c with
    sent_initial_metadata := true
    active_batches := (c.active_batches.set 0 true).set 0 false
    any_ops_sent := true }

/-- The call state after the post-completion duplicate attempt: its fresh
batch control occupies slot 0, the flag is still set. -/
def call_after_rejected_dup (c : call_state) : call_state :=
  { c with
    sent_initial_metadata := true
    active_batches := ((c.active_batches.set 0 true).set 0 false).set 0 true
    any_ops_sent := true }

/-- C5: duplicate detection is per-flag on the call and survives for the
call's whole life: on a call whose `sent_initial_metadata` is still false
and whose send-initial-metadata batch slot is free, a first batch
containing SEND_INITIAL_METADATA returns OK and sets
`sent_initial_metadata`; a second such batch returns
TOO_MANY_OPERATIONS — both when submitted while the first is still
outstanding and when submitted after the first batch completed — and in
either case `sent_initial_metadata` stays true. -/
theorem duplicate_send_initial_metadata_claim (c : call_state)
    (hsim : c.sent_initial_metadata = false)
    (hlen : c.active_batches.length = 6)
    (hslot : c.active_batches.getD 0 false = false) :
    ((call_start_batch c [send_initial_metadata_op]).err = .GRPC_CALL_OK)
    ∧ ((call_start_batch c [send_initial_metadata_op]).call.sent_initial_metadata = true)
    ∧ ((call_start_batch (call_start_batch c [send_initial_metadata_op]).call
          [send_initial_metadata_op]).err = .GRPC_CALL_ERROR_TOO_MANY_OPERATIONS)
    ∧ ((call_start_batch (call_start_batch c [send_initial_metadata_op]).call
          [send_initial_metadata_op]).call.sent_initial_metadata = true)
    ∧ ((call_start_batch
          (complete_batch (call_start_batch c [send_initial_metadata_op]).call
            { empty_stream_op_flags with send_initial_metadata := true } 0)
          [send_initial_metadata_op]).err = .GRPC_CALL_ERROR_TOO_MANY_OPERATIONS)
    ∧ ((call_start_batch
          (complete_batch (call_start_batch c [send_initial_metadata_op]).call
            { empty_stream_op_flags with send_initial_metadata := true } 0)
          [send_initial_metadata_op]).call.sent_initial_metadata = true) := by
  have hslot0 : batch_slot_for_op send_initial_metadata_op.op = 0 := rfl
  have hfree : (c.active_batches.getD
      (batch_slot_for_op send_initial_metadata_op.op) false = true) = False := by
    rw [hslot0, hslot]
    simp
  have hc1 : ({ c with active_batches := c.active_batches.set (batch_slot_for_op send_initial_metadata_op.op) true } : call_state).sent_initial_metadata = false := hsim
  have h1 : call_start_batch c [send_initial_metadata_op] =
      { err := .GRPC_CALL_OK, call := call_after_first_sim_batch c,
        transport_batches_dispatched := 1, steps_to_complete := 1 } := by
    simp only [call_start_batch, hfree, if_false]
    rw [loop_sim_ok _ hc1]
    rfl
  rw [h1]
  have hbusy2 : ((call_after_first_sim_batch c).active_batches.getD
      (batch_slot_for_op send_initial_metadata_op.op) false) = true := by
    rw [hslot0]
    exact getD_set_self c.active_batches 0 true false (by rw [hlen]; decide)
  have h2 : call_start_batch (call_after_first_sim_batch c) [send_initial_metadata_op] =
      { err := .GRPC_CALL_ERROR_TOO_MANY_OPERATIONS, call := call_after_first_sim_batch c,
        transport_batches_dispatched := 0, steps_to_complete := 0 } := by
    simp only [call_start_batch, hbusy2, if_true]
  have hc2 : complete_batch (call_after_first_sim_batch c)
      { empty_stream_op_flags with send_initial_metadata := true } 0 =
        call_after_sim_batch_completed c := by
    simp [complete_batch, empty_stream_op_flags, call_after_first_sim_batch,
      call_after_sim_batch_completed]
  rw [h2, hc2]
  have hfree3 : ((call_after_sim_batch_completed c).active_batches.getD
      (batch_slot_for_op send_initial_metadata_op.op) false = true) = False := by
    rw [hslot0]
    have hset : ((c.active_batches.set 0 true).set 0 false).getD 0 false = false := by
      apply getD_set_self
      rw [List.length_set, hlen]
      decide
    have hproj : (call_after_sim_batch_completed c).active_batches =
        (c.active_batches.set 0 true).set 0 false := rfl
    rw [hproj, hset]
    simp
  have hc3 : ({ (call_after_sim_batch_completed c) with active_batches := (call_after_sim_batch_completed c).active_batches.set (batch_slot_for_op send_initial_metadata_op.op) true } : call_state).sent_initial_metadata = true := rfl
  have h3 : call_start_batch (call_after_sim_batch_completed c) [send_initial_metadata_op] =
      { err := .GRPC_CALL_ERROR_TOO_MANY_OPERATIONS, call := call_after_rejected_dup c,
        transport_batches_dispatched := 0, steps_to_complete := 0 } := by
    simp only [call_start_batch, hfree3, if_false]
    rw [loop_sim_dup _ hc3]
    rfl
  rw [h3]
  exact ⟨rfl, rfl, rfl, rfl, rfl, rfl⟩

/-! ### Witnesses: each hypothesis-bearing theorem applied at a concrete input -/

/-- A SEND_MESSAGE op whose payload pointer is NULL (rejected with
INVALID_MESSAGE). -/
def null_send_message_op : grpc_op :=
  { op := .GRPC_OP_SEND_MESSAGE, reserved_is_null := true, flags := 0,
    send_initial_metadata_count := 0, maybe_compression_level_is_set := false,
    metadata_is_valid := true, send_message_is_null := true, trailing_metadata_count := 0 }

/-- A well-formed SEND_MESSAGE op. -/
def valid_send_message_op : grpc_op :=
  { op := .GRPC_OP_SEND_MESSAGE, reserved_is_null := true, flags := 0,
    send_initial_metadata_count := 0, maybe_compression_level_is_set := false,
    metadata_is_valid := true, send_message_is_null := false, trailing_metadata_count := 0 }

theorem call_start_batch_rollback_or_dispatch_witness :
    ([send_initial_metadata_op] : List grpc_op).length ≤ 6
    ∧ (((call_start_batch (fresh_call true) [send_initial_metadata_op]).err ≠
          .GRPC_CALL_OK →
        six_flags (call_start_batch (fresh_call true) [send_initial_metadata_op]).call =
            six_flags (fresh_call true)
        ∧ (call_start_batch (fresh_call true)
            [send_initial_metadata_op]).transport_batches_dispatched = 0)
      ∧ ((call_start_batch (fresh_call true) [send_initial_metadata_op]).err =
          .GRPC_CALL_OK →
        (∀ op ∈ [send_initial_metadata_op],
          op_flag op.op (call_start_batch (fresh_call true) [send_initial_metadata_op]).call
            = true)
        ∧ (([send_initial_metadata_op] : List grpc_op) ≠ [] →
            (call_start_batch (fresh_call true)
              [send_initial_metadata_op]).transport_batches_dispatched = 1)
        ∧ (([send_initial_metadata_op] : List grpc_op) = [] →
            (call_start_batch (fresh_call true)
              [send_initial_metadata_op]).transport_batches_dispatched = 0))) :=
  ⟨by decide,
    call_start_batch_rollback_or_dispatch (fresh_call true) [send_initial_metadata_op]
      (by decide)⟩

theorem failed_batch_slot_blocks_witness :
    ((fresh_call true).active_batches.length = 6
      ∧ (call_start_batch (fresh_call true) [null_send_message_op]).err ≠ .GRPC_CALL_OK)
    ∧ (six_flags (call_start_batch (fresh_call true) [null_send_message_op]).call =
        six_flags (fresh_call true)
      ∧ (call_start_batch (fresh_call true) [null_send_message_op]).call.active_batches.getD
          (batch_slot_for_op null_send_message_op.op) false = true
      ∧ (call_start_batch
            (call_start_batch (fresh_call true) [null_send_message_op]).call
            [valid_send_message_op]).err = .GRPC_CALL_ERROR_TOO_MANY_OPERATIONS) := by
  have h := failed_batch_slot_blocks (fresh_call true) null_send_message_op []
    (by decide) (by decide)
  exact ⟨⟨by decide, by decide⟩, h.1, h.2.1, h.2.2 valid_send_message_op [] rfl⟩

theorem duplicate_send_initial_metadata_witness :
    ((fresh_call true).sent_initial_metadata = false
      ∧ (fresh_call true).active_batches.length = 6
      ∧ (fresh_call true).active_batches.getD 0 false = false)
    ∧ (((call_start_batch (fresh_call true) [send_initial_metadata_op]).err = .GRPC_CALL_OK)
      ∧ ((call_start_batch (fresh_call true)
            [send_initial_metadata_op]).call.sent_initial_metadata = true)
      ∧ ((call_start_batch
            (call_start_batch (fresh_call true) [send_initial_metadata_op]).call
            [send_initial_metadata_op]).err = .GRPC_CALL_ERROR_TOO_MANY_OPERATIONS)
      ∧ ((call_start_batch
            (call_start_batch (fresh_call true) [send_initial_metadata_op]).call
            [send_initial_metadata_op]).call.sent_initial_metadata = true)
      ∧ ((call_start_batch
            (complete_batch
              (call_start_batch (fresh_call true) [send_initial_metadata_op]).call
              { empty_stream_op_flags with send_initial_metadata := true } 0)
            [send_initial_metadata_op]).err = .GRPC_CALL_ERROR_TOO_MANY_OPERATIONS)
      ∧ ((call_start_batch
            (complete_batch
              (call_start_batch (fresh_call true) [send_initial_metadata_op]).call
              { empty_stream_op_flags with send_initial_metadata := true } 0)
            [send_initial_metadata_op]).call.sent_initial_metadata = true)) :=
  ⟨⟨rfl, rfl, rfl⟩,
    duplicate_send_initial_metadata_claim (fresh_call true) rfl rfl rfl⟩

theorem recv_trailing_filter_records_wire_witness :
    (decode_status "5" ≠ GRPC_STATUS_OK ∧ empty_status_array.wire.is_set = false)
    ∧ ((decode_status "0" = 0 ∧ decode_status "1" = 1 ∧ decode_status "2" = 2)
      ∧ (recv_trailing_filter empty_status_array
            { grpc_status := some "5", grpc_message := some "boom",
              others := [] }).1.wire =
          { is_set := true,
            error := { isNone := false, hasClearGrpcStatus := true,
                       code := decode_status "5", message := (some "boom").getD "" } }
      ∧ (recv_trailing_filter empty_status_array
            { grpc_status := some "5", grpc_message := some "boom",
              others := [] }).2 = []) :=
  ⟨⟨by decide, rfl⟩,
    recv_trailing_filter_records_wire empty_status_array [] "5" (some "boom")
      (by decide) rfl⟩

/-- A concrete compression-library map for the C7 witness (it is not
consulted on the both-set branch). -/
def no_composite_map : Nat → Nat → Option Nat := fun _ _ => none

def all_algorithms_enabled : Nat → Bool := fun _ => true

def both_compressed_call : compression_call_state :=
  { slots := empty_status_array, incoming_message_compression_algorithm := 1,
    incoming_stream_compression_algorithm := 1 }

theorem validate_filtered_metadata_both_compressions_witness :
    (both_compressed_call.incoming_stream_compression_algorithm ≠ GRPC_STREAM_COMPRESS_NONE
      ∧ both_compressed_call.incoming_message_compression_algorithm ≠
          GRPC_MESSAGE_COMPRESS_NONE)
    ∧ ((validate_filtered_metadata no_composite_map all_algorithms_enabled
          both_compressed_call).2 = [(.SURFACE, GRPC_STATUS_INTERNAL)]
      ∧ (both_compressed_call.slots.surface.is_set = false →
          ((validate_filtered_metadata no_composite_map all_algorithms_enabled
              both_compressed_call).1.slots.surface.is_set = true
          ∧ ((validate_filtered_metadata no_composite_map all_algorithms_enabled
              both_compressed_call).1.slots.surface.error.code = GRPC_STATUS_INTERNAL)
          ∧ ((validate_filtered_metadata no_composite_map all_algorithms_enabled
              both_compressed_call).1.slots.surface.error.hasClearGrpcStatus = true)))
      ∧ (both_compressed_call.slots = empty_status_array →
          ∀ is_client : Bool,
            (get_final_status is_client
              (validate_filtered_metadata no_composite_map all_algorithms_enabled
                both_compressed_call).1.slots).1 = GRPC_STATUS_INTERNAL)) :=
  ⟨⟨by decide, by decide⟩,
    validate_filtered_metadata_both_compressions no_composite_map all_algorithms_enabled
      both_compressed_call (by decide) (by decide)⟩

def empty_trailing_md_batch : trailing_md_batch :=
  { grpc_status := none, grpc_message := none, others := [] }

theorem post_batch_completion_consolidates_witness :
    2 ≤ ([GRPC_ERROR_CANCELLED_model, GRPC_ERROR_CANCELLED_model] : List GrpcErrorModel).length
    ∧ ((consolidate_batch_errors [] = .ok
        ∧ consolidate_batch_errors [GRPC_ERROR_CANCELLED_model] =
            .single GRPC_ERROR_CANCELLED_model
        ∧ consolidate_batch_errors [GRPC_ERROR_CANCELLED_model, GRPC_ERROR_CANCELLED_model] =
            .composite "Call batch failed"
              [GRPC_ERROR_CANCELLED_model, GRPC_ERROR_CANCELLED_model])
      ∧ (empty_stream_op_flags.recv_trailing_metadata = false →
          (post_batch_completion true empty_status_array empty_trailing_md_batch false false
              empty_stream_op_flags []).reported_error = consolidate_batch_errors [])
      ∧ (empty_stream_op_flags.recv_trailing_metadata = true →
          (post_batch_completion true empty_status_array empty_trailing_md_batch false false
              empty_stream_op_flags []).reported_error = .ok
          ∧ (true = true →
              (post_batch_completion true empty_status_array empty_trailing_md_batch false
                  false empty_stream_op_flags []).client_status =
                some (get_final_status true
                  (recv_trailing_filter empty_status_array empty_trailing_md_batch).1))
          ∧ (true = false →
              (post_batch_completion true empty_status_array empty_trailing_md_batch false
                  false empty_stream_op_flags []).server_cancelled =
                some ((get_final_status true
                  (recv_trailing_filter empty_status_array empty_trailing_md_batch).1).1 !=
                    GRPC_STATUS_OK)))) :=
  ⟨by decide,
    post_batch_completion_consolidates true empty_status_array empty_trailing_md_batch
      false false empty_stream_op_flags [] GRPC_ERROR_CANCELLED_model
      [GRPC_ERROR_CANCELLED_model, GRPC_ERROR_CANCELLED_model] (by decide)⟩

def witness_batch_events : List (batch_callback × Option GrpcErrorModel) :=
  [(.on_complete, some GRPC_ERROR_CANCELLED_model), (.initial_metadata_ready, none)]

theorem add_batch_error_bounded_witness :
    (witness_batch_events.map Prod.fst).Nodup
    ∧ ((run_batch_callbacks witness_batch_events).num_errors ≤ 3
      ∧ (run_batch_callbacks witness_batch_events).num_errors ≤ MAX_ERRORS_PER_BATCH
      ∧ (run_batch_callbacks witness_batch_events).out_of_bounds_write = false
      ∧ (run_batch_callbacks witness_batch_events).core_cancels ≤ 1
      ∧ ((run_batch_callbacks witness_batch_events).core_cancels =
          match first_error_callback witness_batch_events with
          | some k => if batch_callback_has_cancelled k then 0 else 1
          | none => 0)) :=
  ⟨by decide, add_batch_error_bounded witness_batch_events (by decide)⟩

theorem create_validates_stats_without_tracing_witness :
    (GRPC_PROPAGATE_CENSUS_STATS_CONTEXT &&& GRPC_PROPAGATE_CENSUS_STATS_CONTEXT ≠ 0
      ∧ GRPC_PROPAGATE_CENSUS_STATS_CONTEXT &&& GRPC_PROPAGATE_CENSUS_TRACING_CONTEXT = 0)
    ∧ ((grpc_call_create true GRPC_PROPAGATE_CENSUS_STATS_CONTEXT false none).init_error =
        some { description := "Call creation failed",
               children := [census_stats_without_tracing_msg] }
      ∧ (grpc_call_create true GRPC_PROPAGATE_CENSUS_STATS_CONTEXT false none).cancels =
        [create_cancel_action.surface_init_error
          { description := "Call creation failed",
            children := [census_stats_without_tracing_msg] }]) :=
  ⟨⟨by decide, by decide⟩,
    create_validates_stats_without_tracing GRPC_PROPAGATE_CENSUS_STATS_CONTEXT
      (by decide) (by decide)⟩
